import Mathlib

/-!
Verification development for the wind-automation trading core
(`wind_trader`): price banding (`pricing.py`), signal generation
(`signals.py`), position updates and reconciliation (`reconciler.py`,
`storage.py`), order submission (`order_executor.py`), the retry helper
(`retry.py`) and the terminal-client response checking
(`wind_client.py`).

The Python code is embedded shallowly:

* Python `str` values are Lean `String`s; the handful of string methods
  the code uses (`upper`, `lower`, `startswith`, `endswith`, `in`) are
  re-implemented structurally over `String.data` so that every use is
  kernel-computable.  They agree with CPython on the ASCII range, which
  is the only range the compared literals occupy.
* Python floats are modelled as exact rationals (`ℚ`).  `math.ceil`,
  `math.floor` and `round` become `Int.ceil`, `Int.floor` and a
  round-half-to-even function, the idealisation of CPython semantics.
* Exceptions become `Except` values; the exception classes the code
  raises or catches (`WindClientError`, its base `RuntimeError`,
  `ValueError`, `IndexError`) become the constructors of `PyExc`.
* File, database, logging and clock side effects are modelled by
  explicit state threading (the pending batch in, the mutated batch
  out; the position table as an association list; the current time as
  a parameter).  Log output is not modelled.
-/

/-- Models CPython `str.upper` (ASCII range, which is all the code compares). -/
def upStr (s : String) : String := ⟨s.data.map Char.toUpper⟩

/-- Models CPython `str.lower` (ASCII range). -/
def lowStr (s : String) : String := ⟨s.data.map Char.toLower⟩

/-- Models CPython `str.startswith`. -/
def strStartsWith (s p : String) : Bool := p.data.isPrefixOf s.data

/-- Models CPython `str.endswith`. -/
def strEndsWith (s p : String) : Bool := p.data.reverse.isPrefixOf s.data.reverse

/-- Occurrence of `p` as a contiguous sublist, structurally. -/
def listHasSub (p : List Char) : List Char → Bool
  | [] => p.isEmpty
  | c :: rest => p.isPrefixOf (c :: rest) || listHasSub p rest

/-- Models the CPython substring test `p in s`. -/
def strHasSub (s p : String) : Bool := listHasSub p.data s.data

/-- Models CPython truthiness of an `Optional[str]`: `None` and the empty
string are falsy. -/
def pyTruthyStr : Option String → Bool
  | none => false
  | some s => !s.data.isEmpty

/-- The exception classes raised or caught by the embedded code.
`windClientError` models `wind_client.WindClientError` (a `RuntimeError`
subclass); the payload is `str(exc)`. -/
inductive PyExc where
  | windClientError (msg : String)
  | runtimeError (msg : String)
  | valueError (msg : String)
  | indexError
deriving DecidableEq

/-- The exception tuple `(WindClientError, RuntimeError)` used by
`OrderExecutor.execute` as the retryable classes: `WindClientError`
subclasses `RuntimeError`, so both constructors match; `ValueError` and
`IndexError` do not. -/
def catchWindOrRuntime : PyExc → Bool
  | PyExc.windClientError _ => true
  | PyExc.runtimeError _ => true
  | _ => false

/-- `pricing.infer_limit_pct`: limit percentage from code pattern or name. -/
def infer_limit_pct (code : String) (security_name : Option String := none) : ℚ :=
  let code := upStr code
  if (match security_name with
      | some n => !n.data.isEmpty && strHasSub (upStr n) "ST"
      | none => false) then 5/100
  else if strStartsWith code "300" || strStartsWith code "301" || strStartsWith code "688" then 20/100
  else if strEndsWith code ".BJ" then 20/100
  else if strStartsWith code "ST" then 5/100
  else 10/100

/-- `pricing.infer_tick_size`. -/
def infer_tick_size (code : String) : ℚ :=
  let code := upStr code
  if strEndsWith code ".BJ" then 1/1000 else 1/100

/-- CPython `round` to an integer: round half to even. -/
def roundHalfEven (x : ℚ) : ℤ :=
  let f := ⌊x⌋
  let r := x - f
  if r < 1/2 then f
  else if r > 1/2 then f + 1
  else if f % 2 = 0 then f else f + 1

/-- CPython `round(x, decimals)`. -/
def roundTo (decimals : ℕ) (x : ℚ) : ℚ :=
  (roundHalfEven (x * 10 ^ decimals) : ℚ) / 10 ^ decimals

/-- `pricing.calc_limit_price`: band the reference price, snap it to the
tick grid (ceiling for Buy, floor for Sell, with the `1e-9` epsilon) and
round to 3 decimals when the tick is below `0.01`, else 2. -/
def calc_limit_price (reference_price : ℚ) (direction : String) (pct : ℚ) (tick_size : ℚ) : ℚ :=
  let multiplier := if lowStr direction = "buy" then 1 + pct else 1 - pct
  let raw_price := reference_price * multiplier
  let adjusted :=
    if lowStr direction = "buy" then
      (⌈raw_price / tick_size - 1/1000000000⌉ : ℚ) * tick_size
    else
      (⌊raw_price / tick_size + 1/1000000000⌋ : ℚ) * tick_size
  let decimals : ℕ := if tick_size < 1/100 then 3 else 2
  roundTo decimals adjusted

/-- Claim-side predicate: the security name contains the ST marker
(case-insensitively, as the code tests it). -/
def st_flagged_name (security_name : Option String) : Bool :=
  match security_name with
  | some n => strHasSub (upStr n) "ST"
  | none => false

/-- Claim-side predicate: ChiNext/STAR-prefixed (300/301/688) or
Beijing-exchange (.BJ-suffixed) code, tested on the uppercased code as the
source does. -/
def board_code (code : String) : Bool :=
  strStartsWith (upStr code) "300" || strStartsWith (upStr code) "301" ||
    strStartsWith (upStr code) "688" || strEndsWith (upStr code) ".BJ"

/-- Claim-side predicate: Beijing-exchange (.BJ-suffixed) code. -/
def bj_code (code : String) : Bool := strEndsWith (upStr code) ".BJ"

/-- `models.Signal`. -/
structure Signal where
  code : String
  side : String
  signal_time : String
  price_hint : Option ℚ := none
  reference_price : Option ℚ := none
  security_name : Option String := none
deriving DecidableEq

/-- `models.PendingOrder`. -/
structure PendingOrder where
  code : String
  side : String
  volume : Int
  limit_price : ℚ
  signal_time : String
  trade_date : String
  request_id : Option String := none
  status : String := "Pending"
  notes : Option String := none
deriving DecidableEq

/-- `storage.Position` (one row of the `positions` table). -/
structure Position where
  code : String
  status : Int
  hold_volume : Int := 0
  last_buy_price : Option ℚ := none
  last_sell_price : Option ℚ := none
  pending_sell_since : Option String := none
  last_signal_time : Option String := none
  update_time : Option String := none
deriving DecidableEq

/-- One row of the bar `DataFrame` consumed by `SignalEngine.evaluate`:
the columns the engine reads (`date`, `CHO`, `CLOSE`, and the optional
`SEC_NAME`, absent when the column is missing). -/
structure Bar where
  date : String
  cho : ℚ
  close : ℚ
  sec_name : Option String := none
deriving DecidableEq

/-- Lexicographic code-point comparison of strings, structurally (models
the comparison CPython and pandas use to sort date strings). -/
def listLe : List Char → List Char → Bool
  | [], _ => true
  | _ :: _, [] => false
  | a :: as, b :: bs =>
      if a.toNat < b.toNat then true
      else if b.toNat < a.toNat then false
      else listLe as bs

/-- Stable insertion into a date-sorted bar list. -/
def insertBarByDate (b : Bar) : List Bar → List Bar
  | [] => [b]
  | c :: rest => if listLe c.date.data b.date.data then c :: insertBarByDate b rest else b :: c :: rest

/-- Models `history.sort_values("date")`: the bars ordered by ascending
date (implemented as an insertion sort; the embedded theorems only
constrain the sorted output, so the choice among sorts of equal keys is
immaterial). -/
def sortBarsByDate : List Bar → List Bar
  | [] => []
  | b :: rest => insertBarByDate b (sortBarsByDate rest)

/-- A placeholder bar for the (unreachable) out-of-range index reads. -/
def dummyBar : Bar := { date := "", cho := 0, close := 0 }

/-- `SignalEngine.evaluate`: sort the bars by date; with fewer than two
bars, no signal and the position defaulted to Flat.  Otherwise compare
the CHO of the last two bars: Flat and rising emits Buy; Holding with the
pending marker set sells on a second decline and clears the marker on
anything else; Holding with the marker unset arms it on a decline.
`now` stands for `datetime.utcnow().isoformat()`. -/
def evaluate (code : String) (history : List Bar) (position : Option Position) (now : String) :
    List Signal × Position :=
  let history := sortBarsByDate history
  if history.length < 2 then
    ([], position.getD { code := code, status := 0, update_time := some now })
  else
    let pos := position.getD { code := code, status := 0, update_time := some now }
    let latest := history.getD (history.length - 1) dummyBar
    let prev := history.getD (history.length - 2) dummyBar
    let cho_latest := latest.cho
    let cho_prev := prev.cho
    let signal_time := latest.date
    let close_price := latest.close
    let security_name := latest.sec_name
    let sp :=
      if pos.status = 0 ∧ cho_latest > cho_prev then
        ([({ code := code, side := "Buy", signal_time := signal_time } : Signal)],
         { pos with last_signal_time := some signal_time })
      else if pos.status = 1 then
        if pyTruthyStr pos.pending_sell_since then
          if cho_latest < cho_prev then
            ([({ code := code, side := "Sell", signal_time := signal_time } : Signal)],
             { pos with pending_sell_since := none, last_signal_time := some signal_time })
          else
            ([], { pos with pending_sell_since := none })
        else
          if cho_latest < cho_prev then
            ([], { pos with pending_sell_since := some signal_time })
          else
            ([], pos)
      else ([], pos)
    let pos := { sp.2 with update_time := some now }
    let signals := sp.1.map (fun s =>
      { s with reference_price := some close_price, price_hint := some close_price,
               security_name := security_name })
    (signals, pos)

/-- The `positions` SQLite table of `storage.PositionStore`, as an
association list keyed by instrument code (`code` is the primary key). -/
abbrev PosStore := List (String × Position)

/-- `PositionStore.get`. -/
def storeGet (s : PosStore) (code : String) : Option Position :=
  (s.find? (fun p => p.1 == code)).map (fun p => p.2)

/-- `PositionStore.upsert`: `INSERT ... ON CONFLICT(code) DO UPDATE`,
replacing the row with the same code or appending a new one. -/
def storeUpsert : PosStore → Position → PosStore
  | [], pos => [(pos.code, pos)]
  | (k, v) :: rest, pos =>
      if k == pos.code then (pos.code, pos) :: rest else (k, v) :: storeUpsert rest pos

/-- The dictionary `{field: column[0] for field, column in zip(result.Fields,
result.Data)}` built by `TradeReconciler._parse_order_query`, restricted to
the keys the reconciler reads; a `none` field models an absent key.  The
terminal delivers order status and number as strings, prices as numbers and
volumes as integers, which fixes the field types at this boundary. -/
structure OrderQueryDict where
  order_status : Option String := none
  order_price : Option ℚ := none
  traded_price : Option ℚ := none
  traded_volume : Option Int := none
  order_number : Option String := none
deriving DecidableEq

/-- A terminal response to `tquery`.  `error_code` is `none` when the
object has no `ErrorCode` attribute (`getattr` defaults apply);
`payload_nonempty` models `Fields` and `Data` both being nonempty, the
test `_query_trade` makes.  The raw payload repr that
`WindClient._check_response` would interpolate from `Data` is collapsed
into `error_msg`. -/
structure QueryResponse where
  error_code : Option Int := none
  error_msg : String := ""
  payload : OrderQueryDict := {}
  payload_nonempty : Bool := true
deriving DecidableEq

/-- `WindClient._check_response` as invoked from `WindClient.tquery`:
a truthy `ErrorCode` raises `WindClientError(f"tquery failed: ...")`,
otherwise the response is returned. -/
def check_response_query (result : QueryResponse) : Except PyExc QueryResponse :=
  if result.error_code.getD 0 ≠ 0 then
    Except.error (PyExc.windClientError
      ("tquery failed: " ++ toString (result.error_code.getD 0) ++ " " ++ result.error_msg))
  else
    Except.ok result

/-- A row of the reconciliation report, the dictionary built by
`TradeReconciler._parse_order_query` (an `Option` field set to `none`
models a key that the corresponding dictionary shape omits). -/
structure TradeRow where
  code : String
  side : String
  status : String
  error_code : Option Int := none
  order_price : ℚ
  traded_price : Option ℚ := none
  traded_volume : Int
  order_number : Option String := none
  request_id : Option String := none
deriving DecidableEq

/-- `TradeReconciler._parse_order_query`: a truthy, non-zero `ErrorCode`
yields the `QueryError` row with zero traded volume; otherwise the row is
read out of the zipped field dictionary with the source's defaults. -/
def parse_order_query (result : QueryResponse) (order : PendingOrder) : TradeRow :=
  match result.error_code with
  | some e =>
      if e ≠ 0 then
        { code := order.code, side := order.side, status := "QueryError",
          error_code := some e, order_price := order.limit_price, traded_volume := 0 }
      else
        { code := order.code, side := order.side,
          status := result.payload.order_status.getD "Unknown",
          order_price := result.payload.order_price.getD order.limit_price,
          traded_price := some (result.payload.traded_price.getD 0),
          traded_volume := result.payload.traded_volume.getD 0,
          order_number := result.payload.order_number,
          request_id := order.request_id }
  | none =>
      { code := order.code, side := order.side,
        status := result.payload.order_status.getD "Unknown",
        order_price := result.payload.order_price.getD order.limit_price,
        traded_price := some (result.payload.traded_price.getD 0),
        traded_volume := result.payload.traded_volume.getD 0,
        order_number := result.payload.order_number,
        request_id := order.request_id }

/-- `TradeReconciler._query_trade`: the trade-detail query is wrapped in
a `try`/`except` that swallows every exception, and an empty `Fields` or
`Data` also yields `None`; only the presence of a detail row matters to
the report, so the row content is not modelled further. -/
def query_trade (resp : Except PyExc QueryResponse) : Option QueryResponse :=
  match resp.bind check_response_query with
  | Except.error _ => none
  | Except.ok r => if r.payload_nonempty then some r else none

/-- `TradeReconciler._update_position`: fetch (or default to Flat) the
position for the order's code, flip it on a confirmed Buy fill or a Sell
fill covering the held volume, stamp `update_time`, upsert. -/
def update_position (order : PendingOrder) (trade_info : TradeRow) (store : PosStore)
    (now : String) : PosStore :=
  let pos := (storeGet store order.code).getD { code := order.code, status := 0 }
  let pos :=
    if lowStr order.side = "buy" ∧ trade_info.traded_volume > 0 then
      { pos with status := 1, hold_volume := trade_info.traded_volume,
                 last_buy_price := trade_info.traded_price, pending_sell_since := none }
    else if lowStr order.side = "sell" ∧ trade_info.traded_volume ≥ pos.hold_volume then
      { pos with status := 0, hold_volume := 0,
                 last_sell_price := trade_info.traded_price, pending_sell_since := none }
    else pos
  storeUpsert store { pos with update_time := some now }

/-- The observable outcome of a reconciliation pass: the report rows, the
number of trade-detail rows fetched, the number of terminal queries
issued, and the final position table. -/
structure ReconcileOut where
  rows : List TradeRow
  trade_details : Nat
  queries : Nat
  store : PosStore
deriving DecidableEq

/-- The per-order loop of `TradeReconciler.reconcile`, after the logon
step: orders without a truthy `request_id` are skipped; for the rest the
order-status query runs through `WindClient.tquery` (whose
`_check_response` RAISES on a non-zero error code, with no handler in the
loop, so the error propagates and the remaining orders and the report are
abandoned), the row is parsed, the trade detail is queried, and the
position is updated.  `order_q i` and `trade_q i` are the terminal's
responses to the two queries for the `i`-th order. -/
def reconcile_loop (order_q trade_q : Nat → Except PyExc QueryResponse) (now : String) :
    List PendingOrder → Nat → PosStore → Except PyExc ReconcileOut
  | [], _, store => Except.ok { rows := [], trade_details := 0, queries := 0, store := store }
  | o :: rest, i, store =>
      if pyTruthyStr o.request_id = false then
        reconcile_loop order_q trade_q now rest (i + 1) store
      else do
        let r ← (order_q i).bind check_response_query
        let row := parse_order_query r o
        let td := query_trade (trade_q i)
        let store1 := update_position o row store now
        let out ← reconcile_loop order_q trade_q now rest (i + 1) store1
        pure { rows := row :: out.rows,
               trade_details := (if td.isSome then 1 else 0) + out.trade_details,
               queries := 2 + out.queries,
               store := out.store }

/-- The attempt loop of `retry.retry_call`, structurally recursive on the
number of loop iterations still permitted (`fuel`; the caller passes the
full attempt budget, so the `fuel = 0` case is unreachable).  `f k` is the
outcome of the `k`-th invocation of the wrapped callable (1-based, as in
the source).  Returns the overall outcome together with the number of
invocations made and the list of delays slept: an exception outside
`catchE` propagates at once; a caught exception on the final attempt
breaks out of the loop and is re-raised; otherwise the loop sleeps
`delays[min(attempt - 1, len(delays) - 1)]` and retries. -/
def retryFuel (f : Nat → Except PyExc α) (catchE : PyExc → Bool) (delays : List ℚ)
    (attempts : Nat) : Nat → Nat → Except PyExc α × Nat × List ℚ
  | _, 0 => (Except.error (PyExc.valueError "unreachable"), 0, [])
  | attempt, fuel + 1 =>
      match f attempt with
      | Except.ok a => (Except.ok a, 1, [])
      | Except.error e =>
          if catchE e then
            if attempts ≤ attempt then (Except.error e, 1, [])
            else
              let d := delays.getD (min (attempt - 1) (delays.length - 1)) 0
              let rest := retryFuel f catchE delays attempts (attempt + 1) fuel
              (rest.1, rest.2.1 + 1, d :: rest.2.2)
          else (Except.error e, 1, [])

/-- `retry.retry_call`: fewer than one attempt raises `ValueError` before
any invocation; an empty delay sequence is replaced by `[0]`; then the
attempt loop runs from attempt 1. -/
def retry_call (f : Nat → Except PyExc α) (attempts : Int) (delays : List ℚ)
    (catchE : PyExc → Bool) : Except PyExc α × Nat × List ℚ :=
  if attempts < 1 then (Except.error (PyExc.valueError "attempts must be >= 1"), 0, [])
  else
    let ds := if delays.isEmpty then [(0 : ℚ)] else delays
    retryFuel f catchE ds attempts.toNat 1 attempts.toNat

/-- A terminal response to `torder`.  `data` is `none` when the response
object has no `Data` attribute; otherwise it is the `Data` list of
columns, whose entries are request identifiers or `None`.  As with
`QueryResponse`, the payload repr `_check_response` would interpolate is
collapsed into `error_msg`. -/
structure TOrderResponse where
  error_code : Option Int := none
  error_msg : String := ""
  data : Option (List (List (Option String))) := none
deriving DecidableEq

/-- `WindClient._check_response` as invoked from `WindClient.torder`. -/
def check_response_order (result : TOrderResponse) : Except PyExc TOrderResponse :=
  if result.error_code.getD 0 ≠ 0 then
    Except.error (PyExc.windClientError
      ("torder failed: " ++ toString (result.error_code.getD 0) ++ " " ++ result.error_msg))
  else
    Except.ok result

/-- `response.Data[0][0] if hasattr(response, "Data") else None`: absent
`Data` gives `None`; a present but empty `Data` (or empty first column)
raises `IndexError`, which nothing in `OrderExecutor.execute` catches. -/
def extract_request_id (response : TOrderResponse) : Except PyExc (Option String) :=
  match response.data with
  | none => Except.ok none
  | some d =>
      match d.head? with
      | none => Except.error PyExc.indexError
      | some col =>
          match col.head? with
          | none => Except.error PyExc.indexError
          | some v => Except.ok v

/-- The retry configuration `config.orders.retry`. -/
structure RetryCfg where
  attempts : Int := 3
  backoff_seconds : List ℚ := [1, 2, 4]
deriving DecidableEq

/-- One iteration of the submission loop in `OrderExecutor.execute`:
the `torder` call (terminal outcome `respond k` on the `k`-th attempt,
then `_check_response`) wrapped by `retry_call` with the exception tuple
`(WindClientError, RuntimeError)`.  A successful response marks the order
Submitted and stores the extracted request id; an exhausted
`WindClientError` is caught by the loop's `except WindClientError`
handler, marking the order Failed with `notes = str(exc)`; any other
exception (in particular an exhausted plain `RuntimeError`, or the
`IndexError` from an empty `Data`) propagates out of the loop. -/
def exec_one (cfg : RetryCfg) (respond : Nat → Except PyExc TOrderResponse)
    (order : PendingOrder) : Except PyExc PendingOrder :=
  let call := fun k => (respond k).bind check_response_order
  match (retry_call call cfg.attempts cfg.backoff_seconds catchWindOrRuntime).1 with
  | Except.ok r =>
      (extract_request_id r).map (fun rid =>
        { order with request_id := rid, status := "Submitted" })
  | Except.error e =>
      match e with
      | PyExc.windClientError m => Except.ok { order with status := "Failed", notes := some m }
      | _ => Except.error e

/-- The submission loop of `OrderExecutor.execute` after the logon step,
over the batch read from the pending file.  `responds i k` is the
terminal's outcome for the `k`-th submission attempt of the `i`-th order.
On normal completion the mutated batch is persisted back to the pending
file and the order count returned, modelled by the `Except.ok` payload;
an uncaught exception aborts the loop before `save_pending` runs,
modelled by `Except.error`. -/
def execute_orders (cfg : RetryCfg) (responds : Nat → Nat → Except PyExc TOrderResponse) :
    List PendingOrder → Nat → Except PyExc (List PendingOrder)
  | [], _ => Except.ok []
  | o :: rest, i => do
      let o1 ← exec_one cfg (responds i) o
      let rest1 ← execute_orders cfg responds rest (i + 1)
      pure (o1 :: rest1)

/-- `OrderExecutor.execute` from after the logon step: run the submission
loop on the whole batch and, on normal completion, persist the mutated
batch and return its length. -/
def execute (cfg : RetryCfg) (responds : Nat → Nat → Except PyExc TOrderResponse)
    (orders : List PendingOrder) : Except PyExc (List PendingOrder × Nat) :=
  (execute_orders cfg responds orders 0).map (fun os => (os, os.length))

/-! ## Concrete fixtures for the closed instances -/

/-- A submitted Buy order. -/
def buyOrder : PendingOrder :=
  { code := "600000.SH", side := "Buy", volume := 100, limit_price := 11,
    signal_time := "2024-01-02", trade_date := "20240103",
    request_id := some "R1", status := "Submitted" }

/-- A submitted Sell order. -/
def sellOrder : PendingOrder :=
  { code := "600000.SH", side := "Sell", volume := 100, limit_price := 9,
    signal_time := "2024-01-02", trade_date := "20240103",
    request_id := some "R2", status := "Submitted" }

/-- A confirmed Buy fill row for 50 of the 100 requested shares. -/
def partFillRow : TradeRow :=
  { code := "600000.SH", side := "Buy", status := "Filled", order_price := 11,
    traded_price := some (105/10), traded_volume := 50, request_id := some "R1" }

/-- A Sell fill row for 50 shares. -/
def partSellRow : TradeRow :=
  { code := "600000.SH", side := "Sell", status := "PartFilled", order_price := 9,
    traded_price := some 9, traded_volume := 50, request_id := some "R2" }

/-- The row `_parse_order_query` produces for a Sell order whose
order-status query returned an error. -/
def queryErrorRow : TradeRow :=
  { code := "600000.SH", side := "Sell", status := "QueryError",
    error_code := some (-40522), order_price := 9, traded_volume := 0 }

/-- A Holding position whose fill is not confirmed yet (hold volume 0,
which the data model permits transiently), with the sell marker armed. -/
def holdingAwaitingFill : Position :=
  { code := "600000.SH", status := 1, hold_volume := 0, last_sell_price := some 5,
    pending_sell_since := some "2024-01-01" }

/-- A Holding position with 100 confirmed shares. -/
def holdingFull : Position :=
  { code := "600000.SH", status := 1, hold_volume := 100, last_buy_price := some 10 }

/-- A Flat position. -/
def flatPos : Position := { code := "600000.SH", status := 0 }

/-- A Holding position with the sell marker armed. -/
def armedPos : Position :=
  { code := "600000.SH", status := 1, hold_volume := 100,
    pending_sell_since := some "2024-01-01" }

/-- Two bars with equal CHO readings. -/
def barEq1 : Bar := { date := "2024-01-01", cho := 1, close := 10 }

/-- Two bars with equal CHO readings (second day). -/
def barEq2 : Bar := { date := "2024-01-02", cho := 1, close := 11 }

/-- An error response from the terminal for an order-status query. -/
def errorResp : QueryResponse :=
  { error_code := some (-40522), error_msg := "no such order" }

/-- A pending (not yet submitted) Buy order. -/
def pendingA : PendingOrder :=
  { code := "600000.SH", side := "Buy", volume := 100, limit_price := 11,
    signal_time := "2024-01-02", trade_date := "20240103" }

/-- A second pending Buy order, later in the same batch. -/
def pendingB : PendingOrder :=
  { code := "000001.SZ", side := "Buy", volume := 100, limit_price := 12,
    signal_time := "2024-01-02", trade_date := "20240103" }

/-- A two-attempt retry configuration with a zero backoff. -/
def cfgTwo : RetryCfg := { attempts := 2, backoff_seconds := [0] }

/-- Terminal behavior: every submission attempt for the first order
raises a plain `RuntimeError` (retried, being in the exception tuple);
the second order would succeed at once. -/
def runtimeBoomResponds : Nat → Nat → Except PyExc TOrderResponse :=
  fun i _ =>
    if i = 0 then Except.error (PyExc.runtimeError "boom")
    else Except.ok { data := some [[some "R2"]] }

/-- Terminal behavior: every submission attempt for the first order
returns an error response (which `_check_response` raises as
`WindClientError`); the second order succeeds at once. -/
def rejectedResponds : Nat → Nat → Except PyExc TOrderResponse :=
  fun i _ =>
    if i = 0 then Except.ok { error_code := some (-1), error_msg := "bad order" }
    else Except.ok { data := some [[some "R2"]] }

/-- A successful `torder` response carrying no `Data` attribute. -/
def noDataResp : TOrderResponse := {}

/-- A callable whose every invocation raises `RuntimeError("boom")`. -/
def alwaysBoom : Nat → Except PyExc Nat :=
  fun _ => Except.error (PyExc.runtimeError "boom")

/-! ## Helper lemmas -/

theorem truthy_and_hasSub (n : String) :
    (!n.data.isEmpty && strHasSub (upStr n) "ST") = strHasSub (upStr n) "ST" := by
  obtain ⟨l⟩ := n
  cases l with
  | nil => decide
  | cons c cs => simp [List.isEmpty]

theorem infer_limit_pct_eq (code : String) (security_name : Option String) :
    infer_limit_pct code security_name =
      if st_flagged_name security_name then 5/100
      else if board_code code then 20/100
      else if strStartsWith (upStr code) "ST" then 5/100
      else 10/100 := by
  cases security_name with
  | none =>
      simp only [infer_limit_pct, st_flagged_name]
      cases h1 : strStartsWith (upStr code) "300" <;>
        cases h2 : strStartsWith (upStr code) "301" <;>
          cases h3 : strStartsWith (upStr code) "688" <;>
            cases h4 : strEndsWith (upStr code) ".BJ" <;>
              simp [board_code, h1, h2, h3, h4]
  | some n =>
      simp only [infer_limit_pct, st_flagged_name, truthy_and_hasSub n]
      by_cases hs : strHasSub (upStr n) "ST" = true <;>
        by_cases h1 : strStartsWith (upStr code) "300" = true <;>
          by_cases h2 : strStartsWith (upStr code) "301" = true <;>
            by_cases h3 : strStartsWith (upStr code) "688" = true <;>
              by_cases h4 : strEndsWith (upStr code) ".BJ" = true <;>
                simp [board_code, hs, h1, h2, h3, h4]

theorem roundHalfEven_intCast (m : ℤ) : roundHalfEven (m : ℚ) = m := by
  simp [roundHalfEven, Int.floor_intCast]

theorem roundTo_hundredth (m : ℤ) : roundTo 2 ((m : ℚ) * (1/100)) = (m : ℚ) * (1/100) := by
  have harg : ((m : ℚ) * (1/100)) * 10 ^ 2 = (m : ℚ) := by ring
  rw [roundTo, harg, roundHalfEven_intCast]
  ring

theorem roundTo_thousandth (m : ℤ) : roundTo 3 ((m : ℚ) * (1/1000)) = (m : ℚ) * (1/1000) := by
  have harg : ((m : ℚ) * (1/1000)) * 10 ^ 3 = (m : ℚ) := by ring
  rw [roundTo, harg, roundHalfEven_intCast]
  ring

theorem ceil_int_sub_eps (m : ℤ) : (⌈(m : ℚ) - 1/1000000000⌉ : ℤ) = m := by
  rw [Int.ceil_eq_iff]
  norm_num

theorem floor_int_add_eps (m : ℤ) : (⌊(m : ℚ) + 1/1000000000⌋ : ℤ) = m := by
  rw [Int.floor_eq_iff]
  norm_num

theorem calc_limit_price_buy (p pct t : ℚ) (s : String) (hs : lowStr s = "buy") :
    calc_limit_price p s pct t =
      roundTo (if t < 1/100 then 3 else 2) ((⌈p * (1 + pct) / t - 1/1000000000⌉ : ℚ) * t) := by
  simp [calc_limit_price, hs]

theorem calc_limit_price_sell (p pct t : ℚ) (s : String) (hs : ¬ lowStr s = "buy") :
    calc_limit_price p s pct t =
      roundTo (if t < 1/100 then 3 else 2) ((⌊p * (1 - pct) / t + 1/1000000000⌋ : ℚ) * t) := by
  simp [calc_limit_price, hs]

theorem calc_round_trip_buy (p pct t : ℚ) (d : ℕ) (s : String) (hs : lowStr s = "buy")
    (hd : (if t < 1/100 then (3 : ℕ) else 2) = d)
    (hfix : ∀ m : ℤ, roundTo d ((m : ℚ) * t) = (m : ℚ) * t) (ht : t ≠ 0) :
    calc_limit_price (calc_limit_price p s pct t) s 0 t = calc_limit_price p s pct t := by
  rw [calc_limit_price_buy p pct t s hs, hd, hfix]
  rw [calc_limit_price_buy _ 0 t s hs, hd]
  have h1 : (⌈p * (1 + pct) / t - 1/1000000000⌉ : ℚ) * t * (1 + 0) / t
      = (⌈p * (1 + pct) / t - 1/1000000000⌉ : ℚ) := by field_simp
  rw [h1, ceil_int_sub_eps, hfix]

theorem calc_round_trip_sell (p pct t : ℚ) (d : ℕ) (s : String) (hs : ¬ lowStr s = "buy")
    (hd : (if t < 1/100 then (3 : ℕ) else 2) = d)
    (hfix : ∀ m : ℤ, roundTo d ((m : ℚ) * t) = (m : ℚ) * t) (ht : t ≠ 0) :
    calc_limit_price (calc_limit_price p s pct t) s 0 t = calc_limit_price p s pct t := by
  rw [calc_limit_price_sell p pct t s hs, hd, hfix]
  rw [calc_limit_price_sell _ 0 t s hs, hd]
  have h1 : (⌊p * (1 - pct) / t + 1/1000000000⌋ : ℚ) * t * (1 - 0) / t
      = (⌊p * (1 - pct) / t + 1/1000000000⌋ : ℚ) := by field_simp
  rw [h1, floor_int_add_eps, hfix]

theorem calc_buy_10_example : calc_limit_price 10 "Buy" (10/100) (1/100) = 11 := by
  rw [calc_limit_price_buy 10 (10/100) (1/100) "Buy" (by decide)]
  have hd : (if (1/100 : ℚ) < 1/100 then (3 : ℕ) else 2) = 2 := by norm_num
  have hc : (⌈(10 : ℚ) * (1 + 10/100) / (1/100) - 1/1000000000⌉ : ℤ) = 1100 := by
    rw [Int.ceil_eq_iff]
    norm_num
  rw [hd, hc, roundTo_hundredth 1100]
  norm_num

theorem calc_sell_10_example : calc_limit_price 10 "Sell" (10/100) (1/100) = 9 := by
  rw [calc_limit_price_sell 10 (10/100) (1/100) "Sell" (by decide)]
  have hd : (if (1/100 : ℚ) < 1/100 then (3 : ℕ) else 2) = 2 := by norm_num
  have hc : (⌊(10 : ℚ) * (1 - 10/100) / (1/100) + 1/1000000000⌋ : ℤ) = 900 := by
    rw [Int.floor_eq_iff]
    norm_num
  rw [hd, hc, roundTo_hundredth 900]
  norm_num

theorem calc_buy_20_example : calc_limit_price 10 "Buy" (20/100) (1/1000) = 12 := by
  rw [calc_limit_price_buy 10 (20/100) (1/1000) "Buy" (by decide)]
  have hd : (if (1/1000 : ℚ) < 1/100 then (3 : ℕ) else 2) = 3 := by norm_num
  have hc : (⌈(10 : ℚ) * (1 + 20/100) / (1/1000) - 1/1000000000⌉ : ℤ) = 12000 := by
    rw [Int.ceil_eq_iff]
    norm_num
  rw [hd, hc, roundTo_thousandth 12000]
  norm_num

theorem calc_buy_11_example : calc_limit_price 11 "Buy" (10/100) (1/100) = 121/10 := by
  rw [calc_limit_price_buy 11 (10/100) (1/100) "Buy" (by decide)]
  have hd : (if (1/100 : ℚ) < 1/100 then (3 : ℕ) else 2) = 2 := by norm_num
  have hc : (⌈(11 : ℚ) * (1 + 10/100) / (1/100) - 1/1000000000⌉ : ℤ) = 1210 := by
    rw [Int.ceil_eq_iff]
    norm_num
  rw [hd, hc, roundTo_hundredth 1210]
  norm_num

/-! ## Claim theorems -/

/-- Claim C5, counterexample: `infer_limit_pct` returns 0.05, not 0.10, for
the code "ST123.SZ" with no security name, although the name carries no ST
marker and the code is neither ChiNext/STAR-prefixed nor
Beijing-exchange-suffixed; the claim predicts 0.10 for such inputs. -/
theorem c5_st_prefixed_code_counterexample :
    infer_limit_pct "ST123.SZ" none = 5/100 ∧
    st_flagged_name (none : Option String) = false ∧
    board_code "ST123.SZ" = false ∧
    (5/100 : ℚ) ≠ 10/100 := by
  refine ⟨?_, rfl, by decide, by norm_num⟩
  rw [infer_limit_pct_eq]
  simp [(by decide : board_code "ST123.SZ" = false),
        (by decide : strStartsWith (upStr "ST123.SZ") "ST" = true), st_flagged_name]

/-- Claim C5 (amended): `limit_band` returns 0.05 whenever the security
name contains the ST marker; otherwise 0.20 for ChiNext/STAR-prefixed
(300/301/688) and Beijing-exchange (.BJ-suffixed) codes; otherwise 0.05
also when the code itself starts with ST; and 0.10 for all remaining
inputs.  `tick_size` returns 0.001 exactly for Beijing-exchange codes and
0.01 otherwise. -/
theorem c5_bands_amended :
    (∀ code security_name, st_flagged_name security_name = true →
        infer_limit_pct code security_name = 5/100) ∧
    (∀ code security_name, st_flagged_name security_name = false → board_code code = true →
        infer_limit_pct code security_name = 20/100) ∧
    (∀ code security_name, st_flagged_name security_name = false → board_code code = false →
        strStartsWith (upStr code) "ST" = true → infer_limit_pct code security_name = 5/100) ∧
    (∀ code security_name, st_flagged_name security_name = false → board_code code = false →
        strStartsWith (upStr code) "ST" = false → infer_limit_pct code security_name = 10/100) ∧
    (∀ code, bj_code code = true → infer_tick_size code = 1/1000) ∧
    (∀ code, bj_code code = false → infer_tick_size code = 1/100) := by
  refine ⟨?_, ?_, ?_, ?_, ?_, ?_⟩ <;> intros <;>
    first
      | (rw [infer_limit_pct_eq] ; simp_all)
      | (simp_all [infer_tick_size, bj_code])

theorem c5_bands_amended_witness :
    infer_limit_pct "600600.SH" (some "ST海") = 5/100 ∧
    infer_limit_pct "300750.SZ" none = 20/100 ∧
    infer_limit_pct "ST123.SZ" none = 5/100 ∧
    infer_limit_pct "600000.SH" none = 10/100 ∧
    infer_tick_size "430001.BJ" = 1/1000 ∧
    infer_tick_size "600000.SH" = 1/100 :=
  ⟨c5_bands_amended.1 "600600.SH" (some "ST海") (by decide),
   c5_bands_amended.2.1 "300750.SZ" none (by decide) (by decide),
   c5_bands_amended.2.2.1 "ST123.SZ" none (by decide) (by decide) (by decide),
   c5_bands_amended.2.2.2.1 "600000.SH" none (by decide) (by decide) (by decide),
   c5_bands_amended.2.2.2.2.1 "430001.BJ" (by decide),
   c5_bands_amended.2.2.2.2.2 "600000.SH" (by decide)⟩

/-- Claim C6, counterexample: applying `limit_price` a second time to its
own output with the SAME side, percentage and tick does not return the
same value: the band multiplier compounds, so
`limit_price(limit_price(10, Buy, 0.10, 0.01), Buy, 0.10, 0.01) = 12.1`,
not 11. -/
theorem c6_double_band_counterexample :
    calc_limit_price 10 "Buy" (10/100) (1/100) = 11 ∧
    calc_limit_price (calc_limit_price 10 "Buy" (10/100) (1/100)) "Buy" (10/100) (1/100)
      = 121/10 ∧
    ((121 : ℚ)/10) ≠ 11 := by
  have h1 := calc_buy_10_example
  refine ⟨h1, ?_, by norm_num⟩
  rw [h1, calc_buy_11_example]

/-- Claim C6 (amended): the rounding performed by `limit_price` is
idempotent — its output is already aligned to the tick grid, so
re-applying `limit_price` to its own output with the same side and tick
and a zero percentage (pure re-rounding, no band multiplier) returns the
same value, for either production tick size (0.01 or 0.001) and every
reference price, side and percentage. -/
theorem c6_rounding_fixed_point (p pct tick : ℚ) (side : String)
    (ht : tick = 1/100 ∨ tick = 1/1000) :
    calc_limit_price (calc_limit_price p side pct tick) side 0 tick =
      calc_limit_price p side pct tick := by
  by_cases hs : lowStr side = "buy"
  · rcases ht with h | h <;> subst h
    · exact calc_round_trip_buy p pct _ 2 side hs (by norm_num) roundTo_hundredth (by norm_num)
    · exact calc_round_trip_buy p pct _ 3 side hs (by norm_num) roundTo_thousandth (by norm_num)
  · rcases ht with h | h <;> subst h
    · exact calc_round_trip_sell p pct _ 2 side hs (by norm_num) roundTo_hundredth (by norm_num)
    · exact calc_round_trip_sell p pct _ 3 side hs (by norm_num) roundTo_thousandth (by norm_num)

theorem c6_rounding_fixed_point_witness :
    calc_limit_price (calc_limit_price 10 "Sell" (10/100) (1/100)) "Sell" 0 (1/100) =
      calc_limit_price 10 "Sell" (10/100) (1/100) :=
  c6_rounding_fixed_point 10 (10/100) (1/100) "Sell" (Or.inl rfl)

/-- Claim C8: `limit_price(10, Buy, 0.10, 0.01) = 11`,
`limit_price(10, Sell, 0.10, 0.01) = 9` and
`limit_price(10, Buy, 0.20, 0.001) = 12`, with Buy rounded up to the tick
grid, Sell rounded down, and the result rounded to 3 decimals for ticks
below 0.01 and 2 otherwise. -/
theorem c8_limit_price_values :
    calc_limit_price 10 "Buy" (10/100) (1/100) = 11 ∧
    calc_limit_price 10 "Sell" (10/100) (1/100) = 9 ∧
    calc_limit_price 10 "Buy" (20/100) (1/1000) = 12 :=
  ⟨calc_buy_10_example, calc_sell_10_example, calc_buy_20_example⟩

theorem storeGet_storeUpsert_self (s : PosStore) (pos : Position) :
    storeGet (storeUpsert s pos) pos.code = some pos := by
  induction s with
  | nil => simp [storeGet, storeUpsert]
  | cons kv rest ih =>
      obtain ⟨k, v⟩ := kv
      by_cases h : k == pos.code
      · simp [storeUpsert, h, storeGet]
      · simpa [storeUpsert, h, storeGet] using ih

/-- Claim C3, counterexample: a Sell order whose outcome is a query error
(zero traded volume) does NOT leave the position unchanged when the held
volume is 0: the source's `traded_volume >= hold_volume` test is satisfied
vacuously, so the Sell branch fires and rewrites `status` to Flat,
`last_sell_price` to the (absent) traded price and clears
`pending_sell_since`. -/
theorem c3_sell_zero_hold_counterexample :
    storeGet (update_position sellOrder queryErrorRow
        [("600000.SH", holdingAwaitingFill)] "t1") "600000.SH" =
      some { code := "600000.SH", status := 0, hold_volume := 0, last_buy_price := none,
             last_sell_price := none, pending_sell_since := none, last_signal_time := none,
             update_time := some "t1" } ∧
    holdingAwaitingFill.status = 1 ∧
    holdingAwaitingFill.last_sell_price = some 5 ∧
    holdingAwaitingFill.pending_sell_since = some "2024-01-01" ∧
    queryErrorRow.status = "QueryError" ∧ queryErrorRow.traded_volume = 0 := by
  refine ⟨by decide, rfl, rfl, rfl, rfl, rfl⟩

/-- Claim C3 (amended): for every order whose outcome is neither a Buy
with positive traded volume nor a Sell whose traded volume is at least
the position's current hold volume (in particular every Sell partial
fill, every Buy no-fill and every Buy query error, and every Sell
no-fill or query error on a position with positive hold volume), the
stored position keeps `status`, `hold_volume`, `last_buy_price`,
`last_sell_price` and `pending_sell_since`; only `update_time` is
restamped.  A Sell no-fill or query error on a position whose hold
volume is 0 falls outside this frame, as the counterexample shows.
`hcode` is the store invariant that a row's key equals its record's
`code` field, which the SQLite primary key guarantees. -/
theorem c3_unchanged_amended (order : PendingOrder) (trade : TradeRow) (store : PosStore)
    (now : String) (pos : Position)
    (hget : storeGet store order.code = some pos) (hcode : pos.code = order.code)
    (hnotbuy : ¬(lowStr order.side = "buy" ∧ trade.traded_volume > 0))
    (hnotsell : ¬(lowStr order.side = "sell" ∧ trade.traded_volume ≥ pos.hold_volume)) :
    storeGet (update_position order trade store now) order.code =
      some { pos with update_time := some now } := by
  simp only [update_position, hget, Option.getD_some]
  rw [if_neg hnotbuy, if_neg hnotsell, ← hcode]
  exact storeGet_storeUpsert_self store _

theorem c3_unchanged_amended_witness :
    storeGet [("600000.SH", holdingFull)] "600000.SH" = some holdingFull ∧
    ¬(lowStr sellOrder.side = "buy" ∧ partSellRow.traded_volume > 0) ∧
    ¬(lowStr sellOrder.side = "sell" ∧ partSellRow.traded_volume ≥ holdingFull.hold_volume) ∧
    storeGet (update_position sellOrder partSellRow [("600000.SH", holdingFull)] "t1")
        "600000.SH" = some { holdingFull with update_time := some "t1" } :=
  ⟨by decide, by decide, by decide,
   c3_unchanged_amended sellOrder partSellRow [("600000.SH", holdingFull)] "t1" holdingFull
     (by decide) rfl (by decide) (by decide)⟩

/-- Claim C7: a Buy order reconciled with any strictly positive confirmed
traded volume — including one smaller than the requested volume — makes
the position Holding (status 1) with `hold_volume` equal to the traded
volume, `last_buy_price` equal to the traded price, and
`pending_sell_since` cleared.  `hkey` is the store invariant that a
row's key equals its record's `code` field (guaranteed by the SQLite
primary key), holding trivially when no row exists yet. -/
theorem c7_buy_fill_updates_position (order : PendingOrder) (trade : TradeRow)
    (store : PosStore) (now : String)
    (hside : lowStr order.side = "buy") (hvol : trade.traded_volume > 0)
    (hkey : ((storeGet store order.code).getD { code := order.code, status := 0 }).code
              = order.code) :
    storeGet (update_position order trade store now) order.code =
      some { (storeGet store order.code).getD { code := order.code, status := 0 } with
             status := 1, hold_volume := trade.traded_volume,
             last_buy_price := trade.traded_price, pending_sell_since := none,
             update_time := some now } := by
  simp only [update_position]
  rw [if_pos ⟨hside, hvol⟩]
  set X := (storeGet store order.code).getD { code := order.code, status := 0 } with hX
  rw [← hkey]
  exact storeGet_storeUpsert_self store _

theorem c7_buy_fill_updates_position_witness :
    lowStr buyOrder.side = "buy" ∧
    partFillRow.traded_volume > 0 ∧
    partFillRow.traded_volume < buyOrder.volume ∧
    storeGet (update_position buyOrder partFillRow [] "t1") "600000.SH" =
      some { code := "600000.SH", status := 1, hold_volume := 50,
             last_buy_price := some (105/10), pending_sell_since := none,
             update_time := some "t1" } :=
  ⟨by decide, by decide, by decide,
   c7_buy_fill_updates_position buyOrder partFillRow [] "t1" (by decide) (by decide) rfl⟩

/-- Claim C2, counterexample: with a Holding position whose pending sell
marker is set, two bars with EQUAL oscillator readings emit no signal but
CLEAR the marker — equality disarms the pending marker, contrary to the
claim that it leaves the marker exactly as it was. -/
theorem c2_equal_cho_disarms_counterexample :
    (evaluate "600000.SH" [barEq1, barEq2] (some armedPos) "t0").1 = [] ∧
    (evaluate "600000.SH" [barEq1, barEq2] (some armedPos) "t0").2.pending_sell_since = none ∧
    armedPos.pending_sell_since = some "2024-01-01" ∧
    barEq1.cho = barEq2.cho := by
  refine ⟨by decide, by decide, rfl, rfl⟩

/-- Claim C2 (amended): when the last two bars of the date-sorted series
carry equal oscillator readings, `evaluate` emits no signal; a Flat
position and a Holding position with no pending marker keep
`pending_sell_since` unchanged, but a Holding position whose marker is
set has it cleared (equality counts as a non-falling reading that cancels
the armed sell). -/
theorem c2_equal_cho_amended (code : String) (history : List Bar) (pos : Position)
    (now : String)
    (hlen : 2 ≤ (sortBarsByDate history).length)
    (heq : ((sortBarsByDate history).getD ((sortBarsByDate history).length - 1) dummyBar).cho =
           ((sortBarsByDate history).getD ((sortBarsByDate history).length - 2) dummyBar).cho) :
    (evaluate code history (some pos) now).1 = [] ∧
    (evaluate code history (some pos) now).2.pending_sell_since =
      (if pos.status = 1 ∧ pyTruthyStr pos.pending_sell_since = true then none
       else pos.pending_sell_since) := by
  have hlt : ¬ (sortBarsByDate history).length < 2 := by omega
  simp only [evaluate, hlt, if_false, Option.getD_some, heq]
  by_cases h1 : pos.status = 1 <;>
    by_cases h2 : pyTruthyStr pos.pending_sell_since = true <;>
      by_cases h0 : pos.status = 0 <;>
        simp [h0, h1, h2, lt_irrefl]

theorem c2_equal_cho_amended_witness :
    2 ≤ (sortBarsByDate [barEq1, barEq2]).length ∧
    ((sortBarsByDate [barEq1, barEq2]).getD ((sortBarsByDate [barEq1, barEq2]).length - 1)
        dummyBar).cho =
      ((sortBarsByDate [barEq1, barEq2]).getD ((sortBarsByDate [barEq1, barEq2]).length - 2)
        dummyBar).cho ∧
    (evaluate "600000.SH" [barEq1, barEq2] (some flatPos) "t0").1 = [] ∧
    (evaluate "600000.SH" [barEq1, barEq2] (some flatPos) "t0").2.pending_sell_since =
      (if flatPos.status = 1 ∧ pyTruthyStr flatPos.pending_sell_since = true then none
       else flatPos.pending_sell_since) :=
  ⟨by decide, by decide,
   (c2_equal_cho_amended "600000.SH" [barEq1, barEq2] flatPos "t0" (by decide) (by decide)).1,
   (c2_equal_cho_amended "600000.SH" [barEq1, barEq2] flatPos "t0" (by decide) (by decide)).2⟩

/-- Claim C1: the reconciler is meant to turn an error response for the
order-status query into a "QueryError" row with zero traded volume and
continue — `_parse_order_query` indeed builds exactly that row — but the
row is unreachable through the live client: `WindClient.tquery` runs
`_check_response`, which raises `WindClientError` on the same non-zero
error code, and the reconcile loop has no handler around the order-status
query, so the whole pass aborts instead of producing the row and
continuing. -/
theorem c1_query_error_aborts_pass :
    parse_order_query errorResp buyOrder =
      { code := "600000.SH", side := "Buy", status := "QueryError",
        error_code := some (-40522), order_price := 11, traded_volume := 0 } ∧
    reconcile_loop (fun _ => Except.ok errorResp) (fun _ => Except.ok {}) "t0"
        [buyOrder] 0 [] =
      Except.error (PyExc.windClientError "tquery failed: -40522 no such order") := by
  constructor
  · decide
  · rfl

theorem retryFuel_calls_le {α : Type} (f : Nat → Except PyExc α) (c : PyExc → Bool)
    (ds : List ℚ) (A : ℕ) :
    ∀ fuel attempt, attempt ≤ A →
      (retryFuel f c ds A attempt fuel).2.1 ≤ A + 1 - attempt := by
  intro fuel
  induction fuel with
  | zero => intro attempt h; simp [retryFuel]
  | succ n ih =>
      intro attempt h
      simp only [retryFuel]
      cases hf : f attempt with
      | ok a => simp; omega
      | error e =>
          by_cases hc : c e
          · by_cases hA : A ≤ attempt
            · simp [hc, hA]; omega
            · simp only [hc, if_true, hA, if_false]
              have := ih (attempt + 1) (by omega)
              omega
          · simp [hc]; omega

theorem retryFuel_all_fail {α : Type} (f : Nat → Except PyExc α) (c : PyExc → Bool)
    (ds : List ℚ) (A : ℕ) (err : Nat → PyExc)
    (hf : ∀ j, 1 ≤ j → j ≤ A → f j = Except.error (err j) ∧ c (err j) = true) :
    ∀ fuel attempt, 1 ≤ attempt → attempt ≤ A → A + 1 ≤ attempt + fuel →
      retryFuel f c ds A attempt fuel =
        (Except.error (err A), A + 1 - attempt,
         (List.range' (attempt - 1) (A - attempt)).map
           (fun i => ds.getD (min i (ds.length - 1)) 0)) := by
  intro fuel
  induction fuel with
  | zero => intro attempt h1 h2 h3; omega
  | succ n ih =>
      intro attempt h1 h2 h3
      obtain ⟨hfa, hca⟩ := hf attempt h1 h2
      simp only [retryFuel, hfa, hca, if_true]
      by_cases hA : A ≤ attempt
      · have heq : attempt = A := by omega
        subst heq
        simp [hA, List.range']
      · simp only [hA, if_false]
        rw [ih (attempt + 1) (by omega) (by omega) (by omega)]
        have h4 : A - attempt = (A - (attempt + 1)) + 1 := by omega
        have h5 : attempt - 1 + 1 = attempt := by omega
        rw [h4, List.range'_succ, h5]
        have h6 : A + 1 - (attempt + 1) + 1 = A + 1 - attempt := by omega
        simp [h6]
        omega

/-- Claim C10: `retry_call` invokes the wrapped callable at most
`attempts` times (the middle component of the result counts invocations);
when every invocation raises an exception from the configured tuple it
re-raises exactly the final attempt's exception; for `attempts < 1` it
raises `ValueError` with zero invocations; an empty delay sequence
behaves exactly like the one-element sequence `[0]`; and the sleeps
performed index the delay sequence clamped to its last element, so once
attempts exceed its length the final delay is reused for every extra
wait. -/
theorem c10_retry_call_spec :
    (∀ (α : Type) (f : Nat → Except PyExc α) (c : PyExc → Bool) (a : Int) (ds : List ℚ),
        1 ≤ a → (retry_call f a ds c).2.1 ≤ a.toNat) ∧
    (∀ (α : Type) (f : Nat → Except PyExc α) (c : PyExc → Bool) (a : Int) (ds : List ℚ)
        (err : Nat → PyExc),
        1 ≤ a →
        (∀ j, 1 ≤ j → j ≤ a.toNat → f j = Except.error (err j) ∧ c (err j) = true) →
        (retry_call f a ds c).1 = Except.error (err a.toNat)) ∧
    (∀ (α : Type) (f : Nat → Except PyExc α) (c : PyExc → Bool) (a : Int) (ds : List ℚ),
        a < 1 →
        retry_call f a ds c =
          (Except.error (PyExc.valueError "attempts must be >= 1"), 0, [])) ∧
    (∀ (α : Type) (f : Nat → Except PyExc α) (c : PyExc → Bool) (a : Int),
        retry_call f a [] c = retry_call f a [0] c) ∧
    (∀ (α : Type) (f : Nat → Except PyExc α) (c : PyExc → Bool) (a : Int) (ds : List ℚ)
        (err : Nat → PyExc),
        1 ≤ a →
        (∀ j, 1 ≤ j → j ≤ a.toNat → f j = Except.error (err j) ∧ c (err j) = true) →
        (retry_call f a ds c).2.2 =
          (List.range' 0 (a.toNat - 1)).map
            (fun i => (if ds.isEmpty then [(0 : ℚ)] else ds).getD
              (min i ((if ds.isEmpty then [(0 : ℚ)] else ds).length - 1)) 0)) := by
  refine ⟨?_, ?_, ?_, ?_, ?_⟩
  · intro α f c a ds ha
    have hlt : ¬ a < 1 := by omega
    simp only [retry_call, hlt, if_false]
    have h := retryFuel_calls_le f c (if ds.isEmpty then [(0 : ℚ)] else ds) a.toNat a.toNat 1
      (by omega)
    omega
  · intro α f c a ds err ha hall
    have hlt : ¬ a < 1 := by omega
    simp only [retry_call, hlt, if_false]
    rw [retryFuel_all_fail f c (if ds.isEmpty then [(0 : ℚ)] else ds) a.toNat err hall a.toNat 1
      (by omega) (by omega) (by omega)]
  · intro α f c a ds ha
    simp [retry_call, ha]
  · intro α f c a
    by_cases ha : a < 1
    · simp [retry_call, ha]
    · simp [retry_call, ha]
  · intro α f c a ds err ha hall
    have hlt : ¬ a < 1 := by omega
    simp only [retry_call, hlt, if_false]
    rw [retryFuel_all_fail f c (if ds.isEmpty then [(0 : ℚ)] else ds) a.toNat err hall a.toNat 1
      (by omega) (by omega) (by omega)]

theorem c10_retry_call_spec_witness :
    (retry_call alwaysBoom 3 [5] catchWindOrRuntime).2.1 ≤ (3 : Int).toNat ∧
    (retry_call alwaysBoom 3 [5] catchWindOrRuntime).1 =
      Except.error (PyExc.runtimeError "boom") ∧
    retry_call alwaysBoom 0 [5] catchWindOrRuntime =
      (Except.error (PyExc.valueError "attempts must be >= 1"), 0, []) ∧
    retry_call alwaysBoom 3 [] catchWindOrRuntime =
      retry_call alwaysBoom 3 [0] catchWindOrRuntime ∧
    (retry_call alwaysBoom 3 [5] catchWindOrRuntime).2.2 = [5, 5] :=
  ⟨c10_retry_call_spec.1 Nat alwaysBoom catchWindOrRuntime 3 [5] (by norm_num),
   c10_retry_call_spec.2.1 Nat alwaysBoom catchWindOrRuntime 3 [5]
     (fun _ => PyExc.runtimeError "boom") (by norm_num) (fun j h1 h2 => ⟨rfl, rfl⟩),
   c10_retry_call_spec.2.2.1 Nat alwaysBoom catchWindOrRuntime 0 [5] (by norm_num),
   c10_retry_call_spec.2.2.2.1 Nat alwaysBoom catchWindOrRuntime 3,
   (c10_retry_call_spec.2.2.2.2 Nat alwaysBoom catchWindOrRuntime 3 [5]
     (fun _ => PyExc.runtimeError "boom") (by norm_num) (fun j h1 h2 => ⟨rfl, rfl⟩)).trans
     (by decide)⟩

/-- Claim C4: the batch is meant to survive any one order's exhausted
retries — and it does when the final exception is a `WindClientError`
(the order is marked Failed with the error text in `notes`, the next
order is attempted, the batch is persisted, first conjunct) — but the
retry tuple also retries plain `RuntimeError`s while the loop's handler
catches only `WindClientError`, so a submission that exhausts its
attempts with a plain `RuntimeError` propagates, skips every later order
and leaves the batch unpersisted (second conjunct). -/
theorem c4_runtime_error_aborts_batch :
    execute cfgTwo rejectedResponds [pendingA, pendingB] =
      Except.ok ([{ pendingA with
                    status := "Failed",
                    notes := some "torder failed: -1 bad order" },
                  { pendingB with request_id := some "R2", status := "Submitted" }], 2) ∧
    execute cfgTwo runtimeBoomResponds [pendingA, pendingB] =
      Except.error (PyExc.runtimeError "boom") := by
  constructor
  · rfl
  · rfl

theorem retry_call_first_ok {α : Type} (f : Nat → Except PyExc α) (c : PyExc → Bool)
    (a : Int) (ds : List ℚ) (x : α) (ha : 1 ≤ a) (hf : f 1 = Except.ok x) :
    retry_call f a ds c = (Except.ok x, 1, []) := by
  have hlt : ¬ a < 1 := by omega
  simp only [retry_call, hlt, if_false]
  obtain ⟨k, hk⟩ : ∃ k, a.toNat = k + 1 := ⟨a.toNat - 1, by omega⟩
  rw [hk]
  simp [retryFuel, hf]

/-- Claim C9: an order whose (retried) submission succeeds with a
terminal response that has no `Data` payload finishes the pass with
status "Submitted" but `request_id` still `None` — Submitted does not
guarantee a request id — and the reconciler treats such an order as
missing its request identifier, skipping it without issuing any terminal
query. -/
theorem c9_submitted_without_request_id (cfg : RetryCfg)
    (respond : Nat → Except PyExc TOrderResponse) (order : PendingOrder)
    (r : TOrderResponse)
    (hatt : 1 ≤ cfg.attempts) (hresp : respond 1 = Except.ok r)
    (herr : r.error_code.getD 0 = 0) (hdata : r.data = none) :
    exec_one cfg respond order =
      Except.ok { order with request_id := none, status := "Submitted" } ∧
    ∀ (order_q trade_q : Nat → Except PyExc QueryResponse) (store : PosStore)
        (now : String) (o2 : PendingOrder),
      o2.request_id = none →
      reconcile_loop order_q trade_q now [o2] 0 store =
        Except.ok { rows := [], trade_details := 0, queries := 0, store := store } := by
  constructor
  · have hcall : (fun k => (respond k).bind check_response_order) 1 = Except.ok r := by
      show (respond 1).bind check_response_order = Except.ok r
      rw [hresp]
      show check_response_order r = Except.ok r
      simp [check_response_order, herr]
    simp only [exec_one]
    rw [retry_call_first_ok _ _ _ _ r hatt hcall]
    simp [extract_request_id, hdata, Except.map]
  · intro order_q trade_q store now o2 h
    simp [reconcile_loop, h, pyTruthyStr]

theorem c9_submitted_without_request_id_witness :
    exec_one { attempts := 3, backoff_seconds := [1, 2, 4] } (fun _ => Except.ok noDataResp)
        pendingA =
      Except.ok { pendingA with request_id := none, status := "Submitted" } ∧
    reconcile_loop (fun _ => Except.ok {}) (fun _ => Except.ok {}) "t0"
        [{ pendingA with request_id := none }] 0 [] =
      Except.ok { rows := [], trade_details := 0, queries := 0, store := [] } :=
  ⟨(c9_submitted_without_request_id { attempts := 3, backoff_seconds := [1, 2, 4] }
      (fun _ => Except.ok noDataResp) pendingA noDataResp (by norm_num) rfl rfl rfl).1,
   (c9_submitted_without_request_id { attempts := 3, backoff_seconds := [1, 2, 4] }
      (fun _ => Except.ok noDataResp) pendingA noDataResp (by norm_num) rfl rfl rfl).2
     (fun _ => Except.ok {}) (fun _ => Except.ok {}) [] "t0"
     { pendingA with request_id := none } rfl⟩
